import Mathlib

/-!
Shallow embedding of the wallet-login flow of code423n4.com:
the `UserProvider` context (source `src/unnamed/part_000`, a React
context module exporting `getUserInfo`, `connectWallet`, `logUserOut`,
`checkForUser`) and the `Login` component's `handleLogin`
(`src/src/components/Login/Login.tsx`).

Modelling conventions:
- JavaScript strings that may be `undefined`/missing are modelled as
  `String` with `""` playing the role of every falsy value (the code
  only ever tests them with truthiness).
- Network responses are inputs: each embedded function takes an
  environment record carrying the parsed responses of the endpoints it
  queries.  The avatar probe is an oracle `String → Bool × String`
  (url ↦ (response.ok, response.url)) so that theorems can speak about
  which url the code probes.
- Effects (calls to `setCurrentUser`, `navigate`, the SDK `logout`,
  `user.set`/`user.save`) are returned explicitly in outcome records,
  in the order the code performs them.
- Exceptions thrown with `throw UserLoginError...` become
  `Except UserLoginError`.
-/

namespace C4Login

/-- Element of the `teams` array: `{ username; address?; img? }`. -/
structure TeamInfo where
  username : String
  address : Option String
  img : Option String
deriving DecidableEq, Repr

/-- The `UserState` interface of the context module. -/
structure UserState where
  address : String
  username : String
  discordUsername : String
  gitHubUsername : String
  emailAddress : String
  moralisId : String
  teams : List TeamInfo
  isLoggedIn : Bool
  img : Option String
  link : Option String
deriving DecidableEq, Repr

/-- The `DEFAULT_STATE` empty sentinel. -/
def DEFAULT_STATE : UserState :=
  { address := ""
    username := ""
    discordUsername := ""
    gitHubUsername := ""
    emailAddress := ""
    moralisId := ""
    teams := []
    isLoggedIn := false
    img := none
    link := none }

/-- The `UserLoginError` enum. -/
inductive UserLoginError where
  | RegistrationPending
  | ConnectionPending
  | Unknown
deriving DecidableEq, Repr

/-- The destructured `user.attributes` read at the top of `getUserInfo`. -/
structure UserAttributes where
  c4Username : String
  ethAddress : String
  discordUsername : String
  gitHubUsername : String
  emailAddress : String
deriving DecidableEq, Repr

/-- Parsed JSON body of a successful `get-user` response:
`{ moralisId?, image?, link? }` (missing fields are `""`). -/
structure RegisteredUser where
  moralisId : String
  image : String
  link : String
deriving DecidableEq, Repr

/-- Environment of one `getUserInfo` call: the responses of the
`get-user` endpoint, the avatar probe oracle, and the `get-team`
endpoint. -/
structure GetUserEnv where
  userResponseOk : Bool
  userResponseError : String
  registeredUser : Option RegisteredUser
  imgFetch : String → Bool × String
  teamsStatus : Nat
  teamsBody : List TeamInfo

/-- Base of the fixed raw-content url the avatar probe targets. -/
def rawHandlesBase : String :=
  "https://raw.githubusercontent.com/code-423n4/code423n4.com/main/_data/handles/"

/-- Url built for the avatar probe: the base followed by the stored
image path with its first two characters (the relative `./`) removed,
as `registeredUser.image.slice(2)` does. -/
def rawHandlesUrl (imagePath : String) : String :=
  rawHandlesBase ++ imagePath.drop 2

/-- The avatar-resolution step (lines 169-178): when the record has an
image path, probe the raw-content url; on `ok` replace the image with
the response url, otherwise keep it. -/
def resolveAvatar (image : String) (imgFetch : String → Bool × String) : String :=
  if image ≠ "" then
    let resp := imgFetch (rawHandlesUrl image)
    if resp.1 then resp.2 else image
  else image

/-- The state passed to `setCurrentUser` on the success path of
`getUserInfo` (lines 169-203): avatar resolution applied to the record,
`link`/`img` coerced with `|| null`, teams taken from a 200 response
and `[]` otherwise, `isLoggedIn: true`. -/
def assembleUser (attrs : UserAttributes) (registeredUser : RegisteredUser)
    (env : GetUserEnv) : UserState :=
  let image := resolveAvatar registeredUser.image env.imgFetch
  { username := attrs.c4Username
    moralisId := registeredUser.moralisId
    address := attrs.ethAddress
    discordUsername := attrs.discordUsername
    gitHubUsername := attrs.gitHubUsername
    emailAddress := attrs.emailAddress
    link := if registeredUser.link = "" then none else some registeredUser.link
    img := if image = "" then none else some image
    teams := if env.teamsStatus = 200 then env.teamsBody else []
    isLoggedIn := true }

/-- Embedding of `getUserInfo` (lines 141-204).  `Except.error e`
means the function threw `e` (and in particular never reached
`setCurrentUser`); `Except.ok s` means it completed and ended with
`setCurrentUser s`. -/
def getUserInfo (attrs : UserAttributes) (env : GetUserEnv) :
    Except UserLoginError UserState :=
  if !env.userResponseOk then
    if env.userResponseError = "User not found" then
      Except.error UserLoginError.RegistrationPending
    else
      Except.error UserLoginError.Unknown
  else
    match env.registeredUser with
    | none => Except.error UserLoginError.RegistrationPending
    | some registeredUser =>
      if registeredUser.moralisId = "" then
        Except.error UserLoginError.ConnectionPending
      else
        Except.ok (assembleUser attrs registeredUser env)

/-- The identity object returned by `Moralis.User.current()`, restricted
to the fields the embedded functions read: the profile attributes and
the `handlesPendingConfirmation` marker (`none` = unset/falsy; `some hs`
= any stored array, truthy in JavaScript even when empty). -/
structure MoralisUser where
  attrs : UserAttributes
  handlesPendingConfirmation : Option (List String)
deriving DecidableEq, Repr

/-- Environment of one `connectWallet` call: the current identity, the
result of the `findUser` cloud function (`none` = falsy), and the
environment a nested `getUserInfo` call would use. -/
structure WalletEnv where
  currentUser : Option MoralisUser
  findUserResult : Option (List String)
  userEnv : GetUserEnv

/-- Observable outcome of a `connectWallet` call.  `result` is the
returned value (`some "connected"`, or `none` for the bare `return`
paths) or the rethrown `UserLoginError`; the other fields record the
effects in order: routes passed to `navigate`, states passed to
`setCurrentUser`, number of SDK `logout()` calls, and the handle list
stored via `user.set`/`user.save` when that happens. -/
structure ConnectOutcome where
  result : Except UserLoginError (Option String)
  navigations : List String
  sessionWrites : List UserState
  walletLogoutCount : Nat
  savedHandles : Option (List String)
deriving Repr

/-- Embedding of `connectWallet` (lines 206-239).  Note the source has
no `return` after `navigate("/confirm-account")` on line 218, so when
the marker is set execution falls through into the username branches. -/
def connectWallet (env : WalletEnv) : ConnectOutcome :=
  match env.currentUser with
  | none =>
    { result := Except.ok none
      navigations := []
      sessionWrites := [DEFAULT_STATE]
      walletLogoutCount := 1
      savedHandles := none }
  | some user =>
    let username := user.attrs.c4Username
    let nav0 : List String :=
      if user.handlesPendingConfirmation.isSome then ["/confirm-account"] else []
    if username = "" then
      match env.findUserResult with
      | none =>
        { result := Except.ok none
          navigations := nav0 ++ ["/register"]
          sessionWrites := [DEFAULT_STATE]
          walletLogoutCount := 1
          savedHandles := none }
      | some associatedHandles =>
        if associatedHandles.length < 1 then
          { result := Except.ok none
            navigations := nav0 ++ ["/register"]
            sessionWrites := [DEFAULT_STATE]
            walletLogoutCount := 1
            savedHandles := none }
        else
          { result := Except.ok (some "connected")
            navigations := nav0 ++ ["/confirm-account"]
            sessionWrites := []
            walletLogoutCount := 0
            savedHandles := some associatedHandles }
    else
      match getUserInfo user.attrs env.userEnv with
      | Except.error e =>
        { result := Except.error e
          navigations := nav0
          sessionWrites := []
          walletLogoutCount := 0
          savedHandles := none }
      | Except.ok s =>
        { result := Except.ok (some "connected")
          navigations := nav0
          sessionWrites := [s]
          walletLogoutCount := 0
          savedHandles := none }

/-- Observable outcome of `logUserOut`: the state passed to
`setCurrentUser` and the number of SDK `logout()` calls. -/
structure LogoutOutcome where
  session : UserState
  walletLogoutCount : Nat
deriving DecidableEq, Repr

/-- Embedding of `logUserOut` (lines 241-244): calls the SDK `logout()`
and replaces the session with the empty sentinel, whatever it was. -/
def logUserOut (_prior : UserState) : LogoutOutcome :=
  { session := DEFAULT_STATE, walletLogoutCount := 1 }

/-- Environment of one `checkForUser` run (the session-restore effect):
the SDK `isAuthenticated` flag, the current identity, and the
environment a nested `getUserInfo` call would use. -/
structure RestoreEnv where
  isAuthenticated : Bool
  currentUser : Option MoralisUser
  userEnv : GetUserEnv

/-- Observable outcome of `checkForUser`: states passed to
`setCurrentUser` and number of SDK `logout()` calls. -/
structure RestoreOutcome where
  sessionWrites : List UserState
  walletLogoutCount : Nat
deriving DecidableEq, Repr

/-- Embedding of `checkForUser` (lines 246-269).  Errors thrown inside
the `try` (in particular every `getUserInfo` failure) are caught and
only logged, leaving the session untouched. -/
def checkForUser (env : RestoreEnv) : RestoreOutcome :=
  if !env.isAuthenticated then
    { sessionWrites := [DEFAULT_STATE], walletLogoutCount := 0 }
  else
    match env.currentUser with
    | none => { sessionWrites := [DEFAULT_STATE], walletLogoutCount := 1 }
    | some user =>
      if user.attrs.c4Username = "" then
        { sessionWrites := [], walletLogoutCount := 0 }
      else
        match getUserInfo user.attrs env.userEnv with
        | Except.ok s => { sessionWrites := [s], walletLogoutCount := 0 }
        | Except.error _ => { sessionWrites := [], walletLogoutCount := 0 }

/-- The toast messages `handleLogin` can render via `toast.update`. -/
inductive Notification where
  | mustSign
  | genericFailure
  | success
  | registerAsWarden
  | registrationPendingMsg
  | connectionPendingMsg
deriving DecidableEq, Repr

/-- Result of the `authenticate({ provider })` step in `handleLogin`:
resolved to `undefined` (user cancelled), threw, or succeeded. -/
inductive AuthResult where
  | cancelled
  | failed
  | ok
deriving DecidableEq, Repr

/-- Observable outcome of one `handleLogin` attempt: the `toast.update`
calls in order and the number of `logUserOut()` calls. -/
structure LoginOutcome where
  toasts : List Notification
  logUserOutCount : Nat
deriving DecidableEq, Repr

/-- Embedding of `handleLogin` (Login.tsx lines 17-104).  Note the
source returns after the `RegistrationPending` toast but not after the
`ConnectionPending` one, so that branch falls through into the generic
failure toast. -/
def handleLogin (auth : AuthResult) (env : WalletEnv) : LoginOutcome :=
  match auth with
  | AuthResult.cancelled => { toasts := [Notification.mustSign], logUserOutCount := 0 }
  | AuthResult.failed => { toasts := [Notification.genericFailure], logUserOutCount := 1 }
  | AuthResult.ok =>
    match (connectWallet env).result with
    | Except.ok (some _) => { toasts := [Notification.success], logUserOutCount := 0 }
    | Except.ok none => { toasts := [Notification.registerAsWarden], logUserOutCount := 0 }
    | Except.error e =>
      if e = UserLoginError.RegistrationPending then
        { toasts := [Notification.registrationPendingMsg], logUserOutCount := 1 }
      else if e = UserLoginError.ConnectionPending then
        { toasts := [Notification.connectionPendingMsg, Notification.genericFailure]
          logUserOutCount := 1 }
      else
        { toasts := [Notification.genericFailure], logUserOutCount := 1 }

/-- The spec invariant on session states: `isLoggedIn` is true iff
`moralisId` and `username` are both non-empty. -/
def sessionInvariant (s : UserState) : Prop :=
  s.isLoggedIn = true ↔ (s.moralisId ≠ "" ∧ s.username ≠ "")

instance (s : UserState) : Decidable (sessionInvariant s) := by
  unfold sessionInvariant
  infer_instance

/-! Concrete fixtures used by witnesses and counterexamples. -/

/-- A registered identity's attributes with handle `alice`. -/
def aliceAttrs : UserAttributes :=
  { c4Username := "alice"
    ethAddress := "0xa1"
    discordUsername := "alice#1"
    gitHubUsername := "alicehub"
    emailAddress := "alice@example.com" }

/-- Attributes of an identity with no `c4Username`. -/
def emptyNameAttrs : UserAttributes :=
  { c4Username := ""
    ethAddress := "0xb2"
    discordUsername := ""
    gitHubUsername := ""
    emailAddress := "" }

/-- Avatar oracle whose probe always fails. -/
def noFetch : String → Bool × String := fun _ => (false, "")

/-- A linked profile record (`moralisId` present, no image). -/
def ru0 : RegisteredUser := { moralisId := "m1", image := "", link := "" }

/-- A profile record with no `moralisId` (wallet not linked yet). -/
def ruNoId : RegisteredUser := { moralisId := "", image := "", link := "" }

/-- A linked profile record with a relative image path. -/
def ruImg : RegisteredUser := { moralisId := "m2", image := "./ab.png", link := "" }

/-- `get-user` 200 with `ru0`; team endpoint answers 500. -/
def goodUserEnv : GetUserEnv :=
  { userResponseOk := true
    userResponseError := ""
    registeredUser := some ru0
    imgFetch := noFetch
    teamsStatus := 500
    teamsBody := [] }

/-- `get-user` 200 with `ruNoId`; team endpoint answers 500. -/
def pendingLinkEnv : GetUserEnv :=
  { userResponseOk := true
    userResponseError := ""
    registeredUser := some ruNoId
    imgFetch := noFetch
    teamsStatus := 500
    teamsBody := [] }

/-- `get-user` 404 with body `{error: "User not found"}`. -/
def notFoundEnv : GetUserEnv :=
  { userResponseOk := false
    userResponseError := "User not found"
    registeredUser := none
    imgFetch := noFetch
    teamsStatus := 500
    teamsBody := [] }

/-- `get-user` 200 with `ruImg`; the avatar probe succeeds with url
`resolved.png`. -/
def avatarEnv : GetUserEnv :=
  { userResponseOk := true
    userResponseError := ""
    registeredUser := some ruImg
    imgFetch := fun _ => (true, "resolved.png")
    teamsStatus := 200
    teamsBody := [] }

/-- `connectWallet` input: identity `alice` with the
pending-confirmation marker set and a resolvable profile. -/
def markerEnv : WalletEnv :=
  { currentUser := some { attrs := aliceAttrs, handlesPendingConfirmation := some ["alice"] }
    findUserResult := none
    userEnv := goodUserEnv }

/-- `connectWallet` input: identity `alice`, marker unset, whose
profile resolution fails with `ConnectionPending`. -/
def pendingLinkWalletEnv : WalletEnv :=
  { currentUser := some { attrs := aliceAttrs, handlesPendingConfirmation := none }
    findUserResult := none
    userEnv := pendingLinkEnv }

/-- `connectWallet` input: identity with no handle for which `findUser`
returns one associated handle. -/
def unregisteredEnv : WalletEnv :=
  { currentUser := some { attrs := emptyNameAttrs, handlesPendingConfirmation := none }
    findUserResult := some ["alice"]
    userEnv := goodUserEnv }

/-- `checkForUser` input: authenticated, identity `alice` present, but
profile resolution fails with `ConnectionPending` (no externalUserId
resolvable). -/
def restorePendingLinkEnv : RestoreEnv :=
  { isAuthenticated := true
    currentUser := some { attrs := aliceAttrs, handlesPendingConfirmation := none }
    userEnv := pendingLinkEnv }

/-! Theorems. -/

/-- C1: refuted as stated — with the pending-confirmation marker set,
`connectWallet` does navigate to `/confirm-account`, but because the
source lacks a `return` after that `navigate` it falls through, still
resolves the profile of identity `alice`, and calls `setCurrentUser`
with a logged-in state: Session is mutated. -/
theorem connectWallet_marker_still_mutates_session :
    (connectWallet markerEnv).navigations = ["/confirm-account"] ∧
    (connectWallet markerEnv).sessionWrites = [assembleUser aliceAttrs ru0 goodUserEnv] ∧
    (assembleUser aliceAttrs ru0 goodUserEnv).isLoggedIn = true ∧
    assembleUser aliceAttrs ru0 goodUserEnv ≠ DEFAULT_STATE :=
  ⟨rfl, rfl, rfl, by decide⟩

/-- C2: refuted as stated — when `connectWallet` fails with
`ConnectionPending`, `handleLogin` renders the pending-review toast and
then, because that branch lacks the `return` its `RegistrationPending`
sibling has, falls through and also renders the generic-failure toast:
two notifications in one attempt, not one. -/
theorem handleLogin_connectionPending_double_toast :
    (connectWallet pendingLinkWalletEnv).result =
      Except.error UserLoginError.ConnectionPending ∧
    handleLogin AuthResult.ok pendingLinkWalletEnv =
      { toasts := [Notification.connectionPendingMsg, Notification.genericFailure]
        logUserOutCount := 1 } ∧
    (handleLogin AuthResult.ok pendingLinkWalletEnv).toasts.length = 2 :=
  ⟨rfl, rfl, rfl⟩

/-- C4: when the `get-user` endpoint responds non-ok with error body
`User not found`, `getUserInfo` throws `RegistrationPending`; the
`Except.error` outcome means `setCurrentUser` is never reached, so the
session stays whatever it was (the empty sentinel). -/
theorem getUserInfo_userNotFound_registrationPending
    (attrs : UserAttributes) (env : GetUserEnv)
    (hok : env.userResponseOk = false)
    (herr : env.userResponseError = "User not found") :
    getUserInfo attrs env = Except.error UserLoginError.RegistrationPending := by
  unfold getUserInfo
  rw [hok, herr]
  simp

/-- Witness for C4 at the concrete 404 environment. -/
theorem getUserInfo_userNotFound_registrationPending_witness :
    getUserInfo aliceAttrs notFoundEnv =
      Except.error UserLoginError.RegistrationPending :=
  getUserInfo_userNotFound_registrationPending aliceAttrs notFoundEnv rfl rfl

/-- C5: when the `get-user` endpoint returns a record whose `moralisId`
is missing/empty, `getUserInfo` throws `ConnectionPending`; again the
`Except.error` outcome means no `setCurrentUser` occurs. -/
theorem getUserInfo_missing_moralisId_connectionPending
    (attrs : UserAttributes) (env : GetUserEnv) (ru : RegisteredUser)
    (hok : env.userResponseOk = true)
    (hru : env.registeredUser = some ru)
    (hm : ru.moralisId = "") :
    getUserInfo attrs env = Except.error UserLoginError.ConnectionPending := by
  unfold getUserInfo
  rw [hok, hru]
  simp [hm]

/-- Witness for C5 at the concrete unlinked-record environment. -/
theorem getUserInfo_missing_moralisId_connectionPending_witness :
    getUserInfo aliceAttrs pendingLinkEnv =
      Except.error UserLoginError.ConnectionPending :=
  getUserInfo_missing_moralisId_connectionPending aliceAttrs pendingLinkEnv ruNoId
    rfl rfl rfl

/-- C7: `logUserOut` replaces the session with the empty sentinel
whatever the prior state was, and calls the SDK `logout()` exactly
once; it is side-effect only and always succeeds locally. -/
theorem logUserOut_clears_session (prior : UserState) :
    (logUserOut prior).session = DEFAULT_STATE ∧
    (logUserOut prior).walletLogoutCount = 1 :=
  ⟨rfl, rfl⟩

/-- Inversion for the success path of `getUserInfo`: a completed call
implies the `get-user` response was ok, carried a record with a
non-empty `moralisId`, and the state set is `assembleUser`. -/
theorem getUserInfo_ok_inv (attrs : UserAttributes) (env : GetUserEnv)
    (s : UserState) (h : getUserInfo attrs env = Except.ok s) :
    env.userResponseOk = true ∧
      ∃ ru, env.registeredUser = some ru ∧ ru.moralisId ≠ "" ∧
        s = assembleUser attrs ru env := by
  unfold getUserInfo at h
  split at h
  · split at h <;> exact Except.noConfusion h
  · next hnot =>
    have hok : env.userResponseOk = true := by
      simpa using hnot
    split at h
    · exact Except.noConfusion h
    · next ru heq =>
      split at h
      · exact Except.noConfusion h
      · next hm =>
        cases h
        exact ⟨hok, ru, heq, hm, rfl⟩

/-- Forward computation for the success path of `getUserInfo`. -/
theorem getUserInfo_ok_of (attrs : UserAttributes) (env : GetUserEnv)
    (ru : RegisteredUser) (hok : env.userResponseOk = true)
    (hru : env.registeredUser = some ru) (hm : ru.moralisId ≠ "") :
    getUserInfo attrs env = Except.ok (assembleUser attrs ru env) := by
  unfold getUserInfo
  rw [hok, hru]
  simp [hm]

/-- C3: the session invariant — `isLoggedIn` true iff `moralisId` and
`username` both non-empty — holds of the empty sentinel
`DEFAULT_STATE`, and of every state `getUserInfo` passes to
`setCurrentUser` under its callers' precondition that the identity's
`c4Username` is non-empty (both call sites guard on a truthy
username). -/
theorem sessionInvariant_preserved :
    sessionInvariant DEFAULT_STATE ∧
    ∀ (attrs : UserAttributes) (env : GetUserEnv) (s : UserState),
      attrs.c4Username ≠ "" → getUserInfo attrs env = Except.ok s →
      sessionInvariant s := by
  constructor
  · decide
  · intro attrs env s hu h
    obtain ⟨-, ru, -, hm, rfl⟩ := getUserInfo_ok_inv attrs env s h
    simp only [sessionInvariant, assembleUser]
    exact ⟨fun _ => ⟨hm, hu⟩, fun _ => trivial⟩

/-- Witness for C3 at the concrete resolvable environment. -/
theorem sessionInvariant_preserved_witness :
    sessionInvariant DEFAULT_STATE ∧
    sessionInvariant (assembleUser aliceAttrs ru0 goodUserEnv) :=
  ⟨sessionInvariant_preserved.1,
   sessionInvariant_preserved.2 aliceAttrs goodUserEnv
     (assembleUser aliceAttrs ru0 goodUserEnv) (by decide) rfl⟩

/-- C6: when the team endpoint answers with any non-200 status the
assembled session has an empty team list, and the team query never
causes `getUserInfo` to fail — success is equivalent to conditions on
the `get-user` response alone, independent of the team response. -/
theorem getUserInfo_team_failure_nonfatal
    (attrs : UserAttributes) (env : GetUserEnv)
    (hts : env.teamsStatus ≠ 200) :
    (∀ s, getUserInfo attrs env = Except.ok s → s.teams = []) ∧
    ((getUserInfo attrs env).isOk = true ↔
      env.userResponseOk = true ∧
        ∃ ru, env.registeredUser = some ru ∧ ru.moralisId ≠ "") := by
  constructor
  · intro s h
    obtain ⟨-, ru, -, -, rfl⟩ := getUserInfo_ok_inv attrs env s h
    simp [assembleUser, hts]
  · constructor
    · intro hOk
      cases hg : getUserInfo attrs env with
      | error e => rw [hg] at hOk; exact absurd hOk (by simp [Except.isOk, Except.toBool])
      | ok s =>
        obtain ⟨hok, ru, hru, hm, -⟩ := getUserInfo_ok_inv attrs env s hg
        exact ⟨hok, ru, hru, hm⟩
    · rintro ⟨hok, ru, hru, hm⟩
      rw [getUserInfo_ok_of attrs env ru hok hru hm]
      rfl

/-- Witness for C6 at the concrete environment whose team endpoint
answers 500. -/
theorem getUserInfo_team_failure_nonfatal_witness :
    (assembleUser aliceAttrs ru0 goodUserEnv).teams = [] ∧
    (getUserInfo aliceAttrs goodUserEnv).isOk = true :=
  ⟨(getUserInfo_team_failure_nonfatal aliceAttrs goodUserEnv (by decide)).1
     (assembleUser aliceAttrs ru0 goodUserEnv) rfl,
   (getUserInfo_team_failure_nonfatal aliceAttrs goodUserEnv (by decide)).2.mpr
     ⟨rfl, ru0, rfl, by decide⟩⟩

/-- C8 counterexample: a restore where the SDK is authenticated, the
identity `alice` is present, and profile resolution fails with
`ConnectionPending` — so no externalUserId is resolvable — yet
`checkForUser` neither calls `logUserOut` (zero SDK logouts) nor
touches the session: the error is caught and only logged. -/
theorem checkForUser_swallows_resolution_failure :
    restorePendingLinkEnv.isAuthenticated = true ∧
    restorePendingLinkEnv.currentUser.isSome = true ∧
    getUserInfo aliceAttrs pendingLinkEnv =
      Except.error UserLoginError.ConnectionPending ∧
    (checkForUser restorePendingLinkEnv).walletLogoutCount = 0 ∧
    (checkForUser restorePendingLinkEnv).sessionWrites = [] :=
  ⟨rfl, rfl, rfl, rfl, rfl⟩

/-- C8 amended: during restore with the SDK authenticated, a logout
(empty-sentinel write plus SDK `logout()`) happens exactly when no
identity object is retrievable; when an identity is present but no
externalUserId is resolvable for it — missing handle, or failing
profile resolution — `checkForUser` performs no logout and leaves the
session untouched. -/
theorem checkForUser_restore_behavior
    (env : RestoreEnv) (hauth : env.isAuthenticated = true) :
    (env.currentUser = none →
      checkForUser env =
        { sessionWrites := [DEFAULT_STATE], walletLogoutCount := 1 }) ∧
    (∀ user, env.currentUser = some user →
      (user.attrs.c4Username = "" ∨
        ∃ e, getUserInfo user.attrs env.userEnv = Except.error e) →
      checkForUser env = { sessionWrites := [], walletLogoutCount := 0 }) := by
  constructor
  · intro hcu
    unfold checkForUser
    rw [hauth, hcu]
    rfl
  · intro user hcu hbad
    unfold checkForUser
    rw [hauth, hcu]
    rcases hbad with hname | ⟨e, he⟩
    · simp [hname]
    · by_cases hname : user.attrs.c4Username = ""
      · simp [hname]
      · simp [hname, he]

/-- Witness for C8's amended theorem at the concrete failing-restore
environment. -/
theorem checkForUser_restore_behavior_witness :
    checkForUser restorePendingLinkEnv =
      { sessionWrites := [], walletLogoutCount := 0 } :=
  (checkForUser_restore_behavior restorePendingLinkEnv rfl).2
    { attrs := aliceAttrs, handlesPendingConfirmation := none } rfl
    (Or.inr ⟨UserLoginError.ConnectionPending, rfl⟩)

/-- C9: when the record carries an image path, `getUserInfo` probes the
avatar oracle exactly at the fixed raw-content url built from that path
(`rawHandlesBase ++ path.drop 2`); a successful probe replaces the
image with the response url (then subjected to the `|| null` coercion),
a failed probe keeps the original path. -/
theorem getUserInfo_avatar_probe
    (attrs : UserAttributes) (env : GetUserEnv) (ru : RegisteredUser)
    (s : UserState)
    (hru : env.registeredUser = some ru) (himg : ru.image ≠ "")
    (h : getUserInfo attrs env = Except.ok s) :
    ((env.imgFetch (rawHandlesUrl ru.image)).1 = true →
      s.img = if (env.imgFetch (rawHandlesUrl ru.image)).2 = "" then none
              else some (env.imgFetch (rawHandlesUrl ru.image)).2) ∧
    ((env.imgFetch (rawHandlesUrl ru.image)).1 = false →
      s.img = some ru.image) := by
  obtain ⟨-, ru2, hru2, -, rfl⟩ := getUserInfo_ok_inv attrs env s h
  rw [hru] at hru2
  cases hru2
  constructor
  · intro hp
    simp only [assembleUser, resolveAvatar, if_pos himg, hp]
    simp
  · intro hp
    simp only [assembleUser, resolveAvatar, if_pos himg, hp]
    simp [himg]

/-- Witness for C9 at the concrete record with image `./ab.png` and a
succeeding probe returning `resolved.png`. -/
theorem getUserInfo_avatar_probe_witness :
    (assembleUser aliceAttrs ruImg avatarEnv).img =
      if (avatarEnv.imgFetch (rawHandlesUrl ruImg.image)).2 = "" then none
      else some (avatarEnv.imgFetch (rawHandlesUrl ruImg.image)).2 :=
  (getUserInfo_avatar_probe aliceAttrs avatarEnv ruImg
      (assembleUser aliceAttrs ruImg avatarEnv) rfl (by decide) rfl).1 rfl

/-- C10: when an identity with no handle connects and `findUser`
reports at least one associated handle, `connectWallet` stores the
handles as pending-confirmation (`user.set` + `user.save`), navigates
to `/confirm-account`, and still returns `"connected"` — so
`handleLogin` renders the success toast for this pending state. -/
theorem connectWallet_unregistered_handles_connected
    (env : WalletEnv) (user : MoralisUser) (handles : List String)
    (hcu : env.currentUser = some user)
    (hname : user.attrs.c4Username = "")
    (hfind : env.findUserResult = some handles)
    (hlen : 1 ≤ handles.length) :
    (connectWallet env).savedHandles = some handles ∧
    "/confirm-account" ∈ (connectWallet env).navigations ∧
    (connectWallet env).result = Except.ok (some "connected") ∧
    handleLogin AuthResult.ok env =
      { toasts := [Notification.success], logUserOutCount := 0 } := by
  have hout : connectWallet env =
      { result := Except.ok (some "connected")
        navigations :=
          (if user.handlesPendingConfirmation.isSome
            then ["/confirm-account"] else []) ++ ["/confirm-account"]
        sessionWrites := []
        walletLogoutCount := 0
        savedHandles := some handles } := by
    unfold connectWallet
    rw [hcu, hfind]
    have hlt : ¬ handles.length < 1 := by omega
    simp [hname, hlt]
  refine ⟨by rw [hout], ?_, by rw [hout], ?_⟩
  · rw [hout]
    simp
  · unfold handleLogin
    rw [hout]

/-- Witness for C10 at the concrete no-handle identity for which
`findUser` returns `["alice"]`. -/
theorem connectWallet_unregistered_handles_connected_witness :
    (connectWallet unregisteredEnv).savedHandles = some ["alice"] ∧
    "/confirm-account" ∈ (connectWallet unregisteredEnv).navigations ∧
    (connectWallet unregisteredEnv).result = Except.ok (some "connected") ∧
    handleLogin AuthResult.ok unregisteredEnv =
      { toasts := [Notification.success], logUserOutCount := 0 } :=
  connectWallet_unregistered_handles_connected unregisteredEnv
    { attrs := emptyNameAttrs, handlesPendingConfirmation := none }
    ["alice"] rfl rfl rfl (by decide)

end C4Login
